import Mathlib

/-!
Verification of the PandoraLauncher authentication core: the credential
staging model (`crates/auth/src/credentials.rs`) and the login orchestrator
state machine (`Backend::login` in `crates/backend/src/backend.rs`).

Machine integers do not occur in this subsystem; timestamps
(`chrono::DateTime<Utc>`) are modelled as `Int` values compared with `<`,
token strings (`Arc<str>`) as `String`.

The token-exchange client (`auth::authenticator`) and the auth data models
(`auth::models`) are declared and used by the sources but their module
bodies are not part of the exhibited source tree; their shapes are modelled
from the spec (each such definition is marked).  The orchestrator's network
calls are abstracted as an environment (`LoginEnv`) supplying the outcome
of every exchange call per loop iteration, so theorems quantify over all
possible behaviours of the remote providers.
-/

namespace PandoraAuth

/-- Modelled from the spec (auth::models is not in the source tree):
a `(token, expiry-timestamp)` pair, e.g. `msa_access`, `xbl`, `access_token`. -/
structure TokenWithExpiry where
  token : String
  expiry : Int
deriving DecidableEq

/-- Modelled from the spec: `(token, expiry, userhash)` triple for XSTS. -/
structure XstsToken where
  token : String
  expiry : Int
  userhash : String
deriving DecidableEq

/-- Modelled from the spec: the final game-service access token (newtype). -/
structure MinecraftAccessToken where
  token : String
deriving DecidableEq

/-- Modelled from the spec: result of `finish_authorization` / `refresh_msa`:
an access token plus an optional new refresh token. -/
structure MsaTokens where
  access : TokenWithExpiry
  refresh : Option String
deriving DecidableEq

/-- Modelled from the spec: player profile returned by `get_minecraft_profile`;
only identity fields are relevant to the orchestrator. -/
structure MinecraftProfileResponse where
  id : String
  name : String
deriving DecidableEq

/-- Modelled from the spec: the redirect payload produced by the local
redirect listener and consumed by `finish_authorization`. -/
structure FinishedAuth where
  code : String
deriving DecidableEq

/-- `AccountCredentials` from `crates/auth/src/credentials.rs` (field for
field, in source order). -/
structure AccountCredentials where
  msa_refresh : Option String
  msa_refresh_force_client_id : Option String
  msa_access : Option TokenWithExpiry
  xbl : Option TokenWithExpiry
  xsts : Option XstsToken
  access_token : Option TokenWithExpiry
deriving DecidableEq

/-- `AuthStage` from `credentials.rs`; the Rust `derive(PartialOrd, Ord)`
order is declaration order. -/
inductive AuthStage
  | Initial
  | MsaRefresh
  | MsaAccess
  | XboxLive
  | XboxSecure
  | AccessToken
deriving DecidableEq

/-- `AUTH_STAGE_COUNT` from `credentials.rs`. -/
def AUTH_STAGE_COUNT : Nat := 6

/-- Ordinal of a stage, the `repr(u8)` discriminant / declaration order used
by the derived `Ord` and by `stage as usize` in `Backend::login`. -/
def AuthStage.toNat : AuthStage → Nat
  | .Initial => 0
  | .MsaRefresh => 1
  | .MsaAccess => 2
  | .XboxLive => 3
  | .XboxSecure => 4
  | .AccessToken => 5

/-- `AuthStageWithData` from `credentials.rs`. -/
inductive AuthStageWithData
  | Initial
  | MsaRefresh (token : String)
  | MsaAccess (token : String)
  | XboxLive (token : String)
  | XboxSecure (xsts : String) (userhash : String)
  | AccessToken (token : MinecraftAccessToken)
deriving DecidableEq

/-- `AuthStageWithData::stage` from `credentials.rs`. -/
def AuthStageWithData.stage : AuthStageWithData → AuthStage
  | .Initial => .Initial
  | .MsaRefresh _ => .MsaRefresh
  | .MsaAccess _ => .MsaAccess
  | .XboxLive _ => .XboxLive
  | .XboxSecure _ _ => .XboxSecure
  | .AccessToken _ => .AccessToken

/-- Tail of `AccountCredentials::stage`: the `msa_refresh` check and the
final `Initial` fallthrough. -/
def AccountCredentials.stageFromMsaRefresh (c : AccountCredentials) :
    AuthStageWithData × AccountCredentials :=
  match c.msa_refresh with
  | some msa_refresh => (.MsaRefresh msa_refresh, c)
  | none => (.Initial, c)

/-- Segment of `AccountCredentials::stage` starting at the `msa_access`
check; an invalid or absent `msa_access` is written back as `None`. -/
def AccountCredentials.stageFromMsaAccess (c : AccountCredentials) (now : Int) :
    AuthStageWithData × AccountCredentials :=
  match c.msa_access with
  | some msa_access =>
    if now < msa_access.expiry then
      (.MsaAccess msa_access.token, c)
    else
      AccountCredentials.stageFromMsaRefresh { c with msa_access := none }
  | none => AccountCredentials.stageFromMsaRefresh { c with msa_access := none }

/-- Segment of `AccountCredentials::stage` starting at the `xbl` check. -/
def AccountCredentials.stageFromXbl (c : AccountCredentials) (now : Int) :
    AuthStageWithData × AccountCredentials :=
  match c.xbl with
  | some xbl =>
    if now < xbl.expiry then
      (.XboxLive xbl.token, c)
    else
      AccountCredentials.stageFromMsaAccess { c with xbl := none } now
  | none => AccountCredentials.stageFromMsaAccess { c with xbl := none } now

/-- Segment of `AccountCredentials::stage` starting at the `xsts` check. -/
def AccountCredentials.stageFromXsts (c : AccountCredentials) (now : Int) :
    AuthStageWithData × AccountCredentials :=
  match c.xsts with
  | some xsts =>
    if now < xsts.expiry then
      (.XboxSecure xsts.token xsts.userhash, c)
    else
      AccountCredentials.stageFromXbl { c with xsts := none } now
  | none => AccountCredentials.stageFromXbl { c with xsts := none } now

/-- `AccountCredentials::stage` from `credentials.rs`: the stage resolver.
The Rust method takes `&mut self` and reads `Utc::now()`; here the record is
passed and returned explicitly and `now` is a parameter.  Each failed check
writes the field back as `None` (a no-op when it was already absent),
exactly as the source's unconditional `self.field = None;` statements do. -/
def AccountCredentials.stage (c : AccountCredentials) (now : Int) :
    AuthStageWithData × AccountCredentials :=
  match c.access_token with
  | some access_token =>
    if now < access_token.expiry then
      (.AccessToken ⟨access_token.token⟩, c)
    else
      AccountCredentials.stageFromXsts { c with access_token := none } now
  | none => AccountCredentials.stageFromXsts { c with access_token := none } now

/-- Liveness test used only in theorem statements: a `(token, expiry)` field
holds a token valid at `now`. -/
def tokenLive : Option TokenWithExpiry → Int → Bool
  | some t, now => decide (now < t.expiry)
  | none, _ => false

/-- Liveness test for the `xsts` field, in theorem statements only. -/
def xstsLive : Option XstsToken → Int → Bool
  | some x, now => decide (now < x.expiry)
  | none, _ => false

/-- Modelled from the spec (auth::authenticator is not in the source tree):
error type of `refresh_msa`, classifying failures as invalid grant,
connection/transport, or any other provider rejection. -/
inductive MsaAuthorizationError
  | InvalidGrant
  | ConnectionError
  | OtherRejection
deriving DecidableEq

/-- Modelled from the spec: the connection-error classifier on
`MsaAuthorizationError` consulted by the orchestrator. -/
def MsaAuthorizationError.is_connection_error : MsaAuthorizationError → Bool
  | .ConnectionError => true
  | _ => false

/-- Modelled from the spec: error type of the Xbox/Minecraft exchange calls;
a failure is a connection error, a non-OK HTTP status (carrying the code),
or a provider-specific decode error. -/
inductive XboxAuthenticateError
  | ConnectionError
  | NonOkHttpStatus (status : Nat)
  | DecodeError
deriving DecidableEq

/-- Modelled from the spec: the connection-error classifier on
`XboxAuthenticateError` consulted by the orchestrator. -/
def XboxAuthenticateError.is_connection_error : XboxAuthenticateError → Bool
  | .ConnectionError => true
  | _ => false

/-- Modelled from the spec: failure of the local redirect listener or of
`finish_authorization` (code absent, state mismatch, code rejected). -/
inductive ProcessAuthorizationError
  | MissingCode
  | StateMismatch
  | CodeRejected
deriving DecidableEq

/-- `LoginError` from `backend.rs`. -/
inductive LoginError
  | LoginStageErrorBackwards
  | LoginStageErrorDidntChange
  | ProcessAuthorizationError (e : ProcessAuthorizationError)
  | MsaAuthorizationError (e : MsaAuthorizationError)
  | XboxAuthenticateError (e : XboxAuthenticateError)
  | CancelledByUser
deriving DecidableEq

/-- Observable events emitted by one login attempt: progress-tracker updates
(`set_total`/`set_count` + `notify`), the redirect wait, and the start of
each stage's token-exchange network call. -/
inductive LoginEvent
  | setTotal (n : Nat)
  | setCount (n : Nat)
  | redirectWait
  | exchangeCall (s : AuthStage)
deriving DecidableEq

/-- Outcome of a (fuelled) login run: the source returns
`Result<(MinecraftProfileResponse, MinecraftAccessToken), LoginError>`;
`outOfFuel` marks exhaustion of the interpreter's fuel, which the
termination theorem rules out. -/
inductive LoginResult
  | ok (profile : MinecraftProfileResponse) (token : MinecraftAccessToken)
  | err (e : LoginError)
  | outOfFuel
deriving DecidableEq

/-- Whether a login outcome is the fuel-exhaustion marker. -/
def LoginResult.isOutOfFuel : LoginResult → Bool
  | .outOfFuel => true
  | _ => false

/-- Environment of one login attempt: the cancellation flag, the clock, and
the result of every token-exchange call, all indexed by the loop-iteration
counter so that each suspension point may observe a different world.  This
abstracts the `Authenticator`, the redirect listener and the `ModalAction`
cancellation token.  `redirect i = none` means the cancellation signal won
the `tokio::select!` race against the redirect server. -/
structure LoginEnv where
  cancelRequested : Nat → Bool
  now : Nat → Int
  redirect : Nat → Option (Except ProcessAuthorizationError FinishedAuth)
  finishAuthorization : Nat → FinishedAuth → Except ProcessAuthorizationError MsaTokens
  refreshMsa : Nat → String → Option String → Except MsaAuthorizationError (Option MsaTokens)
  authenticateXbox : Nat → String → Except XboxAuthenticateError TokenWithExpiry
  obtainXsts : Nat → String → Except XboxAuthenticateError XstsToken
  authenticateMinecraft : Nat → String → String → Except XboxAuthenticateError TokenWithExpiry
  getMinecraftProfile : Nat → MinecraftAccessToken → Except XboxAuthenticateError MinecraftProfileResponse

/-- The monotonicity check of `Backend::login` (lines 437-450): compares the
resolved stage's ordinal with the previous iteration's, flipping
`allow_backwards` off on a strict advance, and failing on a disallowed
decrease or on an unchanged stage.  Returns the updated `allow_backwards`. -/
def checkStage : Option AuthStage → AuthStage → Bool → Except LoginError Bool
  | none, _, allow_backwards => .ok allow_backwards
  | some last, stage, allow_backwards =>
    if last.toNat < stage.toNat then
      .ok false
    else if stage.toNat < last.toNat ∧ allow_backwards = false then
      .error .LoginStageErrorBackwards
    else if stage = last then
      .error .LoginStageErrorDidntChange
    else
      .ok allow_backwards

/-- The stage dispatch of `Backend::login` (the `match credentials.stage()`
at lines 453-587).  Returns `(some result, record, events)` when the attempt
terminates inside the arm, `(none, record, events)` when the loop continues.
The record argument is the post-resolution record; logging statements are
not modelled (they do not affect control flow or state). -/
def dispatch (env : LoginEnv) (i : Nat) (allow_backwards : Bool) :
    AuthStageWithData → AccountCredentials →
    Option LoginResult × AccountCredentials × List LoginEvent
  | .Initial, c =>
    match env.redirect i with
    | none => (some (.err .CancelledByUser), c, [.redirectWait])
    | some (.error e) => (some (.err (.ProcessAuthorizationError e)), c, [.redirectWait])
    | some (.ok finished) =>
      match env.finishAuthorization i finished with
      | .error e =>
        (some (.err (.ProcessAuthorizationError e)), c, [.redirectWait, .exchangeCall .Initial])
      | .ok msa_tokens =>
        (none,
         { c with msa_access := some msa_tokens.access,
                  msa_refresh := msa_tokens.refresh,
                  msa_refresh_force_client_id := none },
         [.redirectWait, .exchangeCall .Initial])
  | .MsaRefresh refresh, c =>
    match env.refreshMsa i refresh c.msa_refresh_force_client_id with
    | .ok (some msa_tokens) =>
      (none,
       { c with msa_access := some msa_tokens.access, msa_refresh := msa_tokens.refresh },
       [.exchangeCall .MsaRefresh])
    | .ok none =>
      if allow_backwards = false then
        (some (.err (.MsaAuthorizationError .InvalidGrant)), c, [.exchangeCall .MsaRefresh])
      else
        (none,
         { c with msa_refresh := none, msa_refresh_force_client_id := none },
         [.exchangeCall .MsaRefresh])
    | .error e =>
      if allow_backwards = false ∨ e.is_connection_error = true then
        (some (.err (.MsaAuthorizationError e)), c, [.exchangeCall .MsaRefresh])
      else
        (none,
         { c with msa_refresh := none, msa_refresh_force_client_id := none },
         [.exchangeCall .MsaRefresh])
  | .MsaAccess access, c =>
    match env.authenticateXbox i access with
    | .ok xbl => (none, { c with xbl := some xbl }, [.exchangeCall .MsaAccess])
    | .error e =>
      if allow_backwards = false ∨ e.is_connection_error = true then
        (some (.err (.XboxAuthenticateError e)), c, [.exchangeCall .MsaAccess])
      else
        (none, { c with msa_access := none }, [.exchangeCall .MsaAccess])
  | .XboxLive xbl, c =>
    match env.obtainXsts i xbl with
    | .ok xsts => (none, { c with xsts := some xsts }, [.exchangeCall .XboxLive])
    | .error e =>
      if allow_backwards = false ∨ e.is_connection_error = true then
        (some (.err (.XboxAuthenticateError e)), c, [.exchangeCall .XboxLive])
      else
        (none, { c with xbl := none }, [.exchangeCall .XboxLive])
  | .XboxSecure xsts userhash, c =>
    match env.authenticateMinecraft i xsts userhash with
    | .ok token => (none, { c with access_token := some token }, [.exchangeCall .XboxSecure])
    | .error e =>
      if allow_backwards = false ∨ e.is_connection_error = true then
        (some (.err (.XboxAuthenticateError e)), c, [.exchangeCall .XboxSecure])
      else
        (none, { c with xsts := none }, [.exchangeCall .XboxSecure])
  | .AccessToken access_token, c =>
    match env.getMinecraftProfile i access_token with
    | .ok profile =>
      (some (.ok profile access_token), c,
       [.exchangeCall .AccessToken, .setCount (AUTH_STAGE_COUNT + 1)])
    | .error e =>
      if allow_backwards = false ∨ e.is_connection_error = true then
        (some (.err (.XboxAuthenticateError e)), c, [.exchangeCall .AccessToken])
      else
        (none, { c with access_token := none }, [.exchangeCall .AccessToken])

/-- Result of one iteration of the login loop: either the attempt returns
(`ret`), or it continues with the recorded last stage and the updated
`allow_backwards` flag (`next`). -/
inductive StepRes
  | ret (r : LoginResult) (c : AccountCredentials) (evs : List LoginEvent)
  | next (stage : AuthStage) (allow_backwards : Bool) (c : AccountCredentials)
      (evs : List LoginEvent)
deriving DecidableEq

/-- Events emitted by one iteration. -/
def StepRes.events : StepRes → List LoginEvent
  | .ret _ _ evs => evs
  | .next _ _ _ evs => evs

/-- Credential record after one iteration. -/
def StepRes.creds : StepRes → AccountCredentials
  | .ret _ c _ => c
  | .next _ _ c _ => c

/-- Whether the iteration ended the attempt with the success result. -/
def StepRes.isSuccess : StepRes → Bool
  | .ret (.ok _ _) _ _ => true
  | _ => false

/-- One iteration of the `Backend::login` loop body (lines 426-587): the
cancellation check, the stage resolution, the progress update
(`set_count(stage as usize + 1)` before the exchange call), the
monotonicity check, the second `credentials.stage()` call of line 453, and
the stage dispatch. -/
def loginStep (env : LoginEnv) (i : Nat) (last : Option AuthStage) (allow_backwards : Bool)
    (c : AccountCredentials) : StepRes :=
  if env.cancelRequested i then
    .ret (.err .CancelledByUser) c []
  else
    let s := ((c.stage (env.now i)).1).stage
    let c1 := (c.stage (env.now i)).2
    match checkStage last s allow_backwards with
    | .error e => .ret (.err e) c1 [.setCount (s.toNat + 1)]
    | .ok ab2 =>
      match dispatch env i ab2 (c1.stage (env.now i)).1 (c1.stage (env.now i)).2 with
      | (some r, c2, evs) => .ret r c2 (.setCount (s.toNat + 1) :: evs)
      | (none, c2, evs) => .next s ab2 c2 (.setCount (s.toNat + 1) :: evs)

/-- The fuelled login loop: iterates `loginStep`, threading the last stage,
the `allow_backwards` flag and the record; concatenates the event trace. -/
def loginLoop (env : LoginEnv) :
    Nat → Nat → Option AuthStage → Bool → AccountCredentials →
    LoginResult × AccountCredentials × List LoginEvent
  | 0, _, _, _, c => (.outOfFuel, c, [])
  | fuel + 1, i, last, allow_backwards, c =>
    match loginStep env i last allow_backwards c with
    | .ret r c2 evs => (r, c2, evs)
    | .next s ab2 c2 evs =>
      let rest := loginLoop env fuel (i + 1) (some s) ab2 c2
      (rest.1, rest.2.1, evs ++ rest.2.2)

/-- `Backend::login`: `set_total(AUTH_STAGE_COUNT + 1)` then the loop,
starting with no previous stage and `allow_backwards = true`.  A fuel of
`2 * AUTH_STAGE_COUNT` iterations is supplied; the termination theorem shows
it is never exhausted. -/
def login (env : LoginEnv) (c : AccountCredentials) :
    LoginResult × AccountCredentials × List LoginEvent :=
  let r := loginLoop env (2 * AUTH_STAGE_COUNT) 0 none true c
  (r.1, r.2.1, .setTotal (AUTH_STAGE_COUNT + 1) :: r.2.2)

/-- Progress-trace discipline: scanning the event list while tracking the
most recent `set_count` value, every exchange call must begin with the
reporter showing `ordinal(stage) + 1`. -/
def checkProgress : Option Nat → List LoginEvent → Bool
  | _, [] => true
  | _, .setCount n :: rest => checkProgress (some n) rest
  | cur, .exchangeCall s :: rest =>
    decide (cur = some (s.toNat + 1)) && checkProgress cur rest
  | cur, _ :: rest => checkProgress cur rest

/-- Termination measure on the orchestrator's transient state: an upper
bound on the number of loop iterations still possible from a given
`(last stage, allow_backwards)` pair. -/
def loopMeasure : Option AuthStage → Bool → Nat
  | none, true => 12
  | none, false => 7
  | some l, true => l.toNat + 6
  | some l, false => 6 - l.toNat

/-- The empty credential record (`AccountCredentials::default()`). -/
def emptyCreds : AccountCredentials := ⟨none, none, none, none, none, none⟩

/-- Base scenario environment: never cancelled, clock frozen at 0, redirect
never arriving, every exchange call failing with a decode-style error. -/
def baseEnv : LoginEnv where
  cancelRequested := fun _ => false
  now := fun _ => 0
  redirect := fun _ => none
  finishAuthorization := fun _ _ => .error .MissingCode
  refreshMsa := fun _ _ _ => .error .OtherRejection
  authenticateXbox := fun _ _ => .error .DecodeError
  obtainXsts := fun _ _ => .error .DecodeError
  authenticateMinecraft := fun _ _ _ => .error .DecodeError
  getMinecraftProfile := fun _ _ => .error .DecodeError

/-- Scenario: the refresh succeeds (advancing `MsaRefresh → MsaAccess`, which
forecloses backward movement), then `authenticate_xbox` answers HTTP 401. -/
def envC1cex : LoginEnv :=
  { baseEnv with
    refreshMsa := fun _ _ _ => .ok (some ⟨⟨"a", 100⟩, some "r2"⟩),
    authenticateXbox := fun _ _ => .error (.NonOkHttpStatus 401) }

/-- Record holding only a refresh token. -/
def credsC1 : AccountCredentials := ⟨some "r", none, none, none, none, none⟩

/-- Scenario: `authenticate_xbox` answers HTTP 401 on the very first
iteration (before any advance), then every later hop succeeds. -/
def envC1ok : LoginEnv :=
  { baseEnv with
    refreshMsa := fun _ _ _ => .ok (some ⟨⟨"a2", 100⟩, some "r2"⟩),
    authenticateXbox := fun i _ =>
      if i = 0 then .error (.NonOkHttpStatus 401) else .ok ⟨"x", 100⟩,
    obtainXsts := fun _ _ => .ok ⟨"s", 100, "uh"⟩,
    authenticateMinecraft := fun _ _ _ => .ok ⟨"mc", 100⟩,
    getMinecraftProfile := fun _ _ => .ok ⟨"id0", "name0"⟩ }

/-- Record whose deepest valid token is `msa_access` (first resolved stage
is `MsaAccess`), with a refresh token cached behind it. -/
def credsC1ok : AccountCredentials := ⟨some "r", none, some ⟨"a", 100⟩, none, none, none⟩

/-- Scenario driving the resolved-stage sequence
`Initial, MsaRefresh, MsaAccess, MsaRefresh`: the clock advances by 10 per
iteration and every granted token expires before the iteration after next. -/
def envC3 : LoginEnv :=
  { baseEnv with
    now := fun i => 10 * (i : Int),
    redirect := fun _ => some (.ok ⟨"code"⟩),
    finishAuthorization := fun _ _ => .ok ⟨⟨"a0", 5⟩, some "r"⟩,
    refreshMsa := fun _ _ _ => .ok (some ⟨⟨"a1", 25⟩, some "r2"⟩),
    authenticateXbox := fun _ _ => .ok ⟨"x", 25⟩ }

/-- Scenario: every exchange call fails with a connection-classified error. -/
def envC4 : LoginEnv :=
  { baseEnv with
    refreshMsa := fun _ _ _ => .error .ConnectionError,
    authenticateXbox := fun _ _ => .error .ConnectionError,
    obtainXsts := fun _ _ => .error .ConnectionError,
    authenticateMinecraft := fun _ _ _ => .error .ConnectionError,
    getMinecraftProfile := fun _ _ => .error .ConnectionError }

/-- Scenario: `refresh_msa` reports the invalid-grant case (`Ok(None)`). -/
def envC5 : LoginEnv :=
  { baseEnv with refreshMsa := fun _ _ _ => .ok none }

/-- Record with a refresh token and a forced-client-id override. -/
def credsC5 : AccountCredentials := ⟨some "r", some "cid", none, none, none, none⟩

/-- Scenario: cancellation is requested from the start. -/
def envC7 : LoginEnv :=
  { baseEnv with cancelRequested := fun _ => true }

/-- Scenario: `refresh_msa` succeeds but returns no new refresh token. -/
def envC10 : LoginEnv :=
  { baseEnv with refreshMsa := fun _ _ _ => .ok (some ⟨⟨"a", 100⟩, none⟩) }

/-! ### Resolver lemmas -/

theorem update_msa_access_none (c : AccountCredentials) (h : c.msa_access = none) :
    { c with msa_access := none } = c := by
  cases c
  simp_all

theorem update_xbl_none (c : AccountCredentials) (h : c.xbl = none) :
    { c with xbl := none } = c := by
  cases c
  simp_all

theorem update_xsts_none (c : AccountCredentials) (h : c.xsts = none) :
    { c with xsts := none } = c := by
  cases c
  simp_all

theorem update_access_token_none (c : AccountCredentials) (h : c.access_token = none) :
    { c with access_token := none } = c := by
  cases c
  simp_all

theorem stageFromMsaRefresh_creds (c : AccountCredentials) :
    (c.stageFromMsaRefresh).2 = c := by
  unfold AccountCredentials.stageFromMsaRefresh
  split <;> rfl

theorem stageFromMsaRefresh_idem (c : AccountCredentials) :
    ((c.stageFromMsaRefresh).2).stageFromMsaRefresh = c.stageFromMsaRefresh := by
  rw [stageFromMsaRefresh_creds]

theorem stageFromMsaAccess_of_none (c : AccountCredentials) (now : Int)
    (h : c.msa_access = none) :
    c.stageFromMsaAccess now = c.stageFromMsaRefresh := by
  obtain ⟨a, b, d, e, f, g⟩ := c
  cases d with
  | none => simp [AccountCredentials.stageFromMsaAccess]
  | some t => simp at h

theorem stageFromXbl_of_none (c : AccountCredentials) (now : Int)
    (h : c.xbl = none) :
    c.stageFromXbl now = c.stageFromMsaAccess now := by
  obtain ⟨a, b, d, e, f, g⟩ := c
  cases e with
  | none => simp [AccountCredentials.stageFromXbl]
  | some t => simp at h

theorem stageFromXsts_of_none (c : AccountCredentials) (now : Int)
    (h : c.xsts = none) :
    c.stageFromXsts now = c.stageFromXbl now := by
  obtain ⟨a, b, d, e, f, g⟩ := c
  cases f with
  | none => simp [AccountCredentials.stageFromXsts]
  | some t => simp at h

theorem stage_of_access_token_none (c : AccountCredentials) (now : Int)
    (h : c.access_token = none) :
    c.stage now = c.stageFromXsts now := by
  obtain ⟨a, b, d, e, f, g⟩ := c
  cases g with
  | none => simp [AccountCredentials.stage]
  | some t => simp at h

theorem stageFromMsaAccess_frame (c : AccountCredentials) (now : Int) :
    ((c.stageFromMsaAccess now).2.xbl = c.xbl) ∧
    ((c.stageFromMsaAccess now).2.xsts = c.xsts) ∧
    ((c.stageFromMsaAccess now).2.access_token = c.access_token) := by
  obtain ⟨a, b, d, e, f, g⟩ := c
  cases d with
  | none =>
    rw [stageFromMsaAccess_of_none ⟨a, b, none, e, f, g⟩ now rfl, stageFromMsaRefresh_creds]
    exact ⟨rfl, rfl, rfl⟩
  | some t =>
    by_cases hlt : now < t.expiry
    · simp [AccountCredentials.stageFromMsaAccess, hlt]
    · have h1 : AccountCredentials.stageFromMsaAccess ⟨a, b, some t, e, f, g⟩ now
          = AccountCredentials.stageFromMsaRefresh ⟨a, b, none, e, f, g⟩ := by
        simp [AccountCredentials.stageFromMsaAccess, hlt]
      rw [h1, stageFromMsaRefresh_creds]
      exact ⟨rfl, rfl, rfl⟩

theorem stageFromMsaAccess_idem (c : AccountCredentials) (now : Int) :
    ((c.stageFromMsaAccess now).2).stageFromMsaAccess now = c.stageFromMsaAccess now := by
  obtain ⟨a, b, d, e, f, g⟩ := c
  cases d with
  | none =>
    rw [stageFromMsaAccess_of_none ⟨a, b, none, e, f, g⟩ now rfl, stageFromMsaRefresh_creds,
      stageFromMsaAccess_of_none ⟨a, b, none, e, f, g⟩ now rfl]
  | some t =>
    by_cases hlt : now < t.expiry
    · simp [AccountCredentials.stageFromMsaAccess, hlt]
    · have h1 : AccountCredentials.stageFromMsaAccess ⟨a, b, some t, e, f, g⟩ now
          = AccountCredentials.stageFromMsaRefresh ⟨a, b, none, e, f, g⟩ := by
        simp [AccountCredentials.stageFromMsaAccess, hlt]
      rw [h1, stageFromMsaRefresh_creds, stageFromMsaAccess_of_none _ now rfl]

theorem stageFromXbl_frame (c : AccountCredentials) (now : Int) :
    ((c.stageFromXbl now).2.xsts = c.xsts) ∧
    ((c.stageFromXbl now).2.access_token = c.access_token) := by
  obtain ⟨a, b, d, e, f, g⟩ := c
  cases e with
  | none =>
    rw [stageFromXbl_of_none ⟨a, b, d, none, f, g⟩ now rfl]
    exact ⟨(stageFromMsaAccess_frame _ now).2.1, (stageFromMsaAccess_frame _ now).2.2⟩
  | some t =>
    by_cases hlt : now < t.expiry
    · simp [AccountCredentials.stageFromXbl, hlt]
    · have h1 : AccountCredentials.stageFromXbl ⟨a, b, d, some t, f, g⟩ now
          = AccountCredentials.stageFromMsaAccess ⟨a, b, d, none, f, g⟩ now := by
        simp [AccountCredentials.stageFromXbl, hlt]
      rw [h1]
      exact ⟨(stageFromMsaAccess_frame _ now).2.1, (stageFromMsaAccess_frame _ now).2.2⟩

theorem stageFromXbl_idem (c : AccountCredentials) (now : Int) :
    ((c.stageFromXbl now).2).stageFromXbl now = c.stageFromXbl now := by
  obtain ⟨a, b, d, e, f, g⟩ := c
  cases e with
  | none =>
    rw [stageFromXbl_of_none ⟨a, b, d, none, f, g⟩ now rfl]
    have hY : ((AccountCredentials.stageFromMsaAccess ⟨a, b, d, none, f, g⟩ now).2).xbl
        = none := by simpa using (stageFromMsaAccess_frame ⟨a, b, d, none, f, g⟩ now).1
    rw [stageFromXbl_of_none _ now hY]
    exact stageFromMsaAccess_idem _ now
  | some t =>
    by_cases hlt : now < t.expiry
    · simp [AccountCredentials.stageFromXbl, hlt]
    · have h1 : AccountCredentials.stageFromXbl ⟨a, b, d, some t, f, g⟩ now
          = AccountCredentials.stageFromMsaAccess ⟨a, b, d, none, f, g⟩ now := by
        simp [AccountCredentials.stageFromXbl, hlt]
      rw [h1]
      have hY : ((AccountCredentials.stageFromMsaAccess ⟨a, b, d, none, f, g⟩ now).2).xbl
          = none := by simpa using (stageFromMsaAccess_frame ⟨a, b, d, none, f, g⟩ now).1
      rw [stageFromXbl_of_none _ now hY]
      exact stageFromMsaAccess_idem _ now

theorem stageFromXsts_frame (c : AccountCredentials) (now : Int) :
    ((c.stageFromXsts now).2.access_token = c.access_token) := by
  obtain ⟨a, b, d, e, f, g⟩ := c
  cases f with
  | none =>
    rw [stageFromXsts_of_none ⟨a, b, d, e, none, g⟩ now rfl]
    exact (stageFromXbl_frame _ now).2
  | some t =>
    by_cases hlt : now < t.expiry
    · simp [AccountCredentials.stageFromXsts, hlt]
    · have h1 : AccountCredentials.stageFromXsts ⟨a, b, d, e, some t, g⟩ now
          = AccountCredentials.stageFromXbl ⟨a, b, d, e, none, g⟩ now := by
        simp [AccountCredentials.stageFromXsts, hlt]
      rw [h1]
      exact (stageFromXbl_frame _ now).2

theorem stageFromXsts_idem (c : AccountCredentials) (now : Int) :
    ((c.stageFromXsts now).2).stageFromXsts now = c.stageFromXsts now := by
  obtain ⟨a, b, d, e, f, g⟩ := c
  cases f with
  | none =>
    rw [stageFromXsts_of_none ⟨a, b, d, e, none, g⟩ now rfl]
    have hY : ((AccountCredentials.stageFromXbl ⟨a, b, d, e, none, g⟩ now).2).xsts
        = none := by simpa using (stageFromXbl_frame ⟨a, b, d, e, none, g⟩ now).1
    rw [stageFromXsts_of_none _ now hY]
    exact stageFromXbl_idem _ now
  | some t =>
    by_cases hlt : now < t.expiry
    · simp [AccountCredentials.stageFromXsts, hlt]
    · have h1 : AccountCredentials.stageFromXsts ⟨a, b, d, e, some t, g⟩ now
          = AccountCredentials.stageFromXbl ⟨a, b, d, e, none, g⟩ now := by
        simp [AccountCredentials.stageFromXsts, hlt]
      rw [h1]
      have hY : ((AccountCredentials.stageFromXbl ⟨a, b, d, e, none, g⟩ now).2).xsts
          = none := by simpa using (stageFromXbl_frame ⟨a, b, d, e, none, g⟩ now).1
      rw [stageFromXsts_of_none _ now hY]
      exact stageFromXbl_idem _ now

theorem stage_idem (c : AccountCredentials) (now : Int) :
    ((c.stage now).2).stage now = c.stage now := by
  obtain ⟨a, b, d, e, f, g⟩ := c
  cases g with
  | none =>
    rw [stage_of_access_token_none ⟨a, b, d, e, f, none⟩ now rfl]
    have hY : ((AccountCredentials.stageFromXsts ⟨a, b, d, e, f, none⟩ now).2).access_token
        = none := by simpa using stageFromXsts_frame ⟨a, b, d, e, f, none⟩ now
    rw [stage_of_access_token_none _ now hY]
    exact stageFromXsts_idem _ now
  | some t =>
    by_cases hlt : now < t.expiry
    · simp [AccountCredentials.stage, hlt]
    · have h1 : AccountCredentials.stage ⟨a, b, d, e, f, some t⟩ now
          = AccountCredentials.stageFromXsts ⟨a, b, d, e, f, none⟩ now := by
        simp [AccountCredentials.stage, hlt]
      rw [h1]
      have hY : ((AccountCredentials.stageFromXsts ⟨a, b, d, e, f, none⟩ now).2).access_token
          = none := by simpa using stageFromXsts_frame ⟨a, b, d, e, f, none⟩ now
      rw [stage_of_access_token_none _ now hY]
      exact stageFromXsts_idem _ now

/-! ### Claims about the stage resolver -/

/-- C2: for every credential record and instant `now`, `resolve` returns the
deepest still-valid cached stage as a cascade — `AccessToken` if
`access_token` is present and unexpired (else it is cleared), then
`XboxSecure` from `xsts`, then `XboxLive` from `xbl`, then `MsaAccess` from
`msa_access`, then `MsaRefresh` whenever `refresh_token` is present (no
expiry check), else `Initial`; in particular a record with only
`access_token` expiring at `T+10` resolves to `AccessToken` at `T` and to
`Initial` at `T+11` with `access_token` cleared. -/
theorem C2_resolver_cascade (c : AccountCredentials) (now : Int) :
    (∀ t, c.access_token = some t → now < t.expiry →
      c.stage now = (.AccessToken ⟨t.token⟩, c))
  ∧ (tokenLive c.access_token now = false → ∀ x, c.xsts = some x → now < x.expiry →
      c.stage now = (.XboxSecure x.token x.userhash, { c with access_token := none }))
  ∧ (tokenLive c.access_token now = false → xstsLive c.xsts now = false →
      ∀ t, c.xbl = some t → now < t.expiry →
      c.stage now = (.XboxLive t.token, { c with access_token := none, xsts := none }))
  ∧ (tokenLive c.access_token now = false → xstsLive c.xsts now = false →
      tokenLive c.xbl now = false → ∀ t, c.msa_access = some t → now < t.expiry →
      c.stage now
        = (.MsaAccess t.token, { c with access_token := none, xsts := none, xbl := none }))
  ∧ (tokenLive c.access_token now = false → xstsLive c.xsts now = false →
      tokenLive c.xbl now = false → tokenLive c.msa_access now = false →
      ∀ r, c.msa_refresh = some r →
      c.stage now = (.MsaRefresh r,
        { c with access_token := none, xsts := none, xbl := none, msa_access := none }))
  ∧ (tokenLive c.access_token now = false → xstsLive c.xsts now = false →
      tokenLive c.xbl now = false → tokenLive c.msa_access now = false →
      c.msa_refresh = none →
      c.stage now = (.Initial,
        { c with access_token := none, xsts := none, xbl := none, msa_access := none }))
  ∧ (AccountCredentials.stage ⟨none, none, none, none, none, some ⟨"tok", 10⟩⟩ 0
      = (.AccessToken ⟨"tok"⟩, ⟨none, none, none, none, none, some ⟨"tok", 10⟩⟩))
  ∧ (AccountCredentials.stage ⟨none, none, none, none, none, some ⟨"tok", 10⟩⟩ 11
      = (.Initial, ⟨none, none, none, none, none, none⟩)) := by
  obtain ⟨a, b, d, e, f, g⟩ := c
  refine ⟨?_, ?_, ?_, ?_, ?_, ?_, by decide, by decide⟩
  · intro t ht hlt
    cases ht
    simp [AccountCredentials.stage, hlt]
  · intro hA x hx hlt
    cases hx
    rcases g with _ | tg <;>
      simp_all [tokenLive, AccountCredentials.stage, AccountCredentials.stageFromXsts, hlt] <;>
      (try split_ifs) <;> first | rfl | (exfalso; omega)
  · intro hA hX t ht hlt
    cases ht
    rcases g with _ | tg <;> rcases f with _ | tx <;>
      simp_all [tokenLive, xstsLive, AccountCredentials.stage,
        AccountCredentials.stageFromXsts, AccountCredentials.stageFromXbl, hlt] <;>
      (try split_ifs) <;> first | rfl | (exfalso; omega)
  · intro hA hX hB t ht hlt
    cases ht
    rcases g with _ | tg <;> rcases f with _ | tx <;> rcases e with _ | te <;>
      simp_all [tokenLive, xstsLive, AccountCredentials.stage,
        AccountCredentials.stageFromXsts, AccountCredentials.stageFromXbl,
        AccountCredentials.stageFromMsaAccess, hlt] <;>
      (try split_ifs) <;> first | rfl | (exfalso; omega)
  · intro hA hX hB hM r hr
    cases hr
    rcases g with _ | tg <;> rcases f with _ | tx <;> rcases e with _ | te <;>
        rcases d with _ | td <;>
      simp_all [tokenLive, xstsLive, AccountCredentials.stage,
        AccountCredentials.stageFromXsts, AccountCredentials.stageFromXbl,
        AccountCredentials.stageFromMsaAccess, AccountCredentials.stageFromMsaRefresh] <;>
      (try split_ifs) <;> first | rfl | (exfalso; omega)
  · intro hA hX hB hM hr
    cases hr
    rcases g with _ | tg <;> rcases f with _ | tx <;> rcases e with _ | te <;>
        rcases d with _ | td <;>
      simp_all [tokenLive, xstsLive, AccountCredentials.stage,
        AccountCredentials.stageFromXsts, AccountCredentials.stageFromXbl,
        AccountCredentials.stageFromMsaAccess, AccountCredentials.stageFromMsaRefresh] <;>
      (try split_ifs) <;> first | rfl | (exfalso; omega)

/-- Witness for C2: the cascade theorem instantiated at concrete records,
hitting the `AccessToken` branch and the `MsaRefresh` branch. -/
theorem C2_resolver_cascade_witness :
    (AccountCredentials.stage ⟨none, none, none, none, none, some ⟨"w", 5⟩⟩ 0
      = (.AccessToken ⟨"w"⟩, ⟨none, none, none, none, none, some ⟨"w", 5⟩⟩))
    ∧ (AccountCredentials.stage ⟨some "r", none, none, none, none, none⟩ 0
      = (.MsaRefresh "r", ⟨some "r", none, none, none, none, none⟩)) := by
  constructor
  · exact (C2_resolver_cascade ⟨none, none, none, none, none, some ⟨"w", 5⟩⟩ 0).1
      ⟨"w", 5⟩ rfl (by decide)
  · exact (C2_resolver_cascade ⟨some "r", none, none, none, none, none⟩ 0).2.2.2.2.1
      rfl rfl rfl rfl "r" rfl

/-- C6: for a frozen `now`, `resolve` is idempotent — a second call on the
record returned by the first call yields the same stage and leaves the
record unchanged, so all field-clearing happens on the first call only. -/
theorem C6_resolve_idempotent (c : AccountCredentials) (now : Int) :
    ((c.stage now).2).stage now = ((c.stage now).1, (c.stage now).2) := by
  rw [stage_idem c now]

/-! ### Login-loop lemmas -/

theorem loginStep_eq (env : LoginEnv) (i : Nat) (last : Option AuthStage) (ab : Bool)
    (c : AccountCredentials) (hc : env.cancelRequested i = false) :
    loginStep env i last ab c =
      match checkStage last ((c.stage (env.now i)).1.stage) ab with
      | .error e => .ret (.err e) (c.stage (env.now i)).2
          [.setCount (((c.stage (env.now i)).1.stage).toNat + 1)]
      | .ok ab2 =>
        match dispatch env i ab2 (c.stage (env.now i)).1 (c.stage (env.now i)).2 with
        | (some r, c2, evs) =>
          .ret r c2 (.setCount (((c.stage (env.now i)).1.stage).toNat + 1) :: evs)
        | (none, c2, evs) =>
          .next ((c.stage (env.now i)).1.stage) ab2 c2
            (.setCount (((c.stage (env.now i)).1.stage).toNat + 1) :: evs) := by
  simp only [loginStep, hc, Bool.false_eq_true, if_false]
  rw [stage_idem]

theorem loginStep_eq_err (env : LoginEnv) (i : Nat) (last : Option AuthStage) (ab : Bool)
    (c : AccountCredentials) (hc : env.cancelRequested i = false) (e : LoginError)
    (hcs : checkStage last ((c.stage (env.now i)).1.stage) ab = .error e) :
    loginStep env i last ab c = .ret (.err e) (c.stage (env.now i)).2
      [.setCount (((c.stage (env.now i)).1.stage).toNat + 1)] := by
  rw [loginStep_eq env i last ab c hc, hcs]

theorem loginStep_eq_ok (env : LoginEnv) (i : Nat) (last : Option AuthStage) (ab : Bool)
    (c : AccountCredentials) (hc : env.cancelRequested i = false) (ab2 : Bool)
    (hcs : checkStage last ((c.stage (env.now i)).1.stage) ab = .ok ab2) :
    loginStep env i last ab c =
      match dispatch env i ab2 (c.stage (env.now i)).1 (c.stage (env.now i)).2 with
      | (some r, c2, evs) =>
        .ret r c2 (.setCount (((c.stage (env.now i)).1.stage).toNat + 1) :: evs)
      | (none, c2, evs) =>
        .next ((c.stage (env.now i)).1.stage) ab2 c2
          (.setCount (((c.stage (env.now i)).1.stage).toNat + 1) :: evs) := by
  rw [loginStep_eq env i last ab c hc, hcs]

/-! ### Claims about the login orchestrator -/

/-- C3: the monotonicity check — a strictly greater ordinal permanently
clears `allow_backwards`, a strictly smaller ordinal with `allow_backwards`
off terminates with `LoginStageErrorBackwards`, an equal stage terminates
with `LoginStageErrorDidntChange`; and the concrete run resolving
`Initial, MsaRefresh, MsaAccess, MsaRefresh` ends with
`LoginStageErrorBackwards` exactly at the third transition (three exchange
calls in the trace, then the failing check). -/
theorem C3_monotonicity (l s : AuthStage) (ab : Bool) :
    (l.toNat < s.toNat → checkStage (some l) s ab = .ok false)
  ∧ (s.toNat < l.toNat → ab = false →
      checkStage (some l) s ab = .error .LoginStageErrorBackwards)
  ∧ (checkStage (some l) l ab = .error .LoginStageErrorDidntChange)
  ∧ (login envC3 emptyCreds
      = (.err .LoginStageErrorBackwards,
         ⟨some "r2", none, none, none, none, none⟩,
         [.setTotal 7, .setCount 1, .redirectWait, .exchangeCall .Initial,
          .setCount 2, .exchangeCall .MsaRefresh,
          .setCount 3, .exchangeCall .MsaAccess,
          .setCount 2])) := by
  refine ⟨?_, ?_, ?_, by decide⟩
  · intro h
    simp [checkStage, h]
  · intro h1 h2
    simp only [checkStage]
    rw [if_neg (by omega), if_pos ⟨h1, h2⟩]
  · simp [checkStage]

/-- Witness for C3: the check instantiated at a strict advance and at a
disallowed decrease. -/
theorem C3_monotonicity_witness :
    (checkStage (some .Initial) .MsaRefresh true = .ok false)
    ∧ (checkStage (some .MsaAccess) .MsaRefresh false
        = .error .LoginStageErrorBackwards) := by
  constructor
  · exact (C3_monotonicity .Initial .MsaRefresh true).1 (by decide)
  · exact (C3_monotonicity .MsaAccess .MsaRefresh false).2.1 (by decide) rfl

/-- C4: a connection-classified failure of any exchange call from
`MsaRefresh` through `AccessToken` makes the dispatch return the error
fatally — for every value of `allow_backwards`, including `true` — with the
credential record exactly as resolution left it (no field cleared, no
fallback); and a returning iteration ends the whole loop with that result. -/
theorem C4_connection_errors_fatal (env : LoginEnv) (i : Nat) (ab : Bool)
    (c : AccountCredentials) :
    (∀ tok e, env.refreshMsa i tok c.msa_refresh_force_client_id = .error e →
      e.is_connection_error = true →
      dispatch env i ab (.MsaRefresh tok) c
        = (some (.err (.MsaAuthorizationError e)), c, [.exchangeCall .MsaRefresh]))
  ∧ (∀ tok e, env.authenticateXbox i tok = .error e → e.is_connection_error = true →
      dispatch env i ab (.MsaAccess tok) c
        = (some (.err (.XboxAuthenticateError e)), c, [.exchangeCall .MsaAccess]))
  ∧ (∀ tok e, env.obtainXsts i tok = .error e → e.is_connection_error = true →
      dispatch env i ab (.XboxLive tok) c
        = (some (.err (.XboxAuthenticateError e)), c, [.exchangeCall .XboxLive]))
  ∧ (∀ xs uh e, env.authenticateMinecraft i xs uh = .error e → e.is_connection_error = true →
      dispatch env i ab (.XboxSecure xs uh) c
        = (some (.err (.XboxAuthenticateError e)), c, [.exchangeCall .XboxSecure]))
  ∧ (∀ tok e, env.getMinecraftProfile i tok = .error e → e.is_connection_error = true →
      dispatch env i ab (.AccessToken tok) c
        = (some (.err (.XboxAuthenticateError e)), c, [.exchangeCall .AccessToken]))
  ∧ (∀ fuel last r c2 evs, loginStep env i last ab c = .ret r c2 evs →
      loginLoop env (fuel + 1) i last ab c = (r, c2, evs)) := by
  refine ⟨?_, ?_, ?_, ?_, ?_, ?_⟩
  · intro tok e h1 h2
    simp [dispatch, h1, h2]
  · intro tok e h1 h2
    simp [dispatch, h1, h2]
  · intro tok e h1 h2
    simp [dispatch, h1, h2]
  · intro xs uh e h1 h2
    simp [dispatch, h1, h2]
  · intro tok e h1 h2
    simp [dispatch, h1, h2]
  · intro fuel last r c2 evs h
    simp only [loginLoop]
    rw [h]

/-- Witness for C4: every stage's dispatch under `envC4` (all calls failing
with connection errors) returns fatally with the record untouched, and the
loop ends on the first iteration. -/
theorem C4_connection_errors_fatal_witness :
    (dispatch envC4 0 true (.MsaRefresh "r") emptyCreds
      = (some (.err (.MsaAuthorizationError .ConnectionError)), emptyCreds,
         [.exchangeCall .MsaRefresh]))
    ∧ (dispatch envC4 0 true (.MsaAccess "a") emptyCreds
      = (some (.err (.XboxAuthenticateError .ConnectionError)), emptyCreds,
         [.exchangeCall .MsaAccess]))
    ∧ (dispatch envC4 0 true (.XboxLive "x") emptyCreds
      = (some (.err (.XboxAuthenticateError .ConnectionError)), emptyCreds,
         [.exchangeCall .XboxLive]))
    ∧ (dispatch envC4 0 true (.XboxSecure "s" "uh") emptyCreds
      = (some (.err (.XboxAuthenticateError .ConnectionError)), emptyCreds,
         [.exchangeCall .XboxSecure]))
    ∧ (dispatch envC4 0 true (.AccessToken ⟨"mc"⟩) emptyCreds
      = (some (.err (.XboxAuthenticateError .ConnectionError)), emptyCreds,
         [.exchangeCall .AccessToken]))
    ∧ (loginLoop envC4 1 0 none true credsC1
      = (.err (.MsaAuthorizationError .ConnectionError), credsC1,
         [.setCount 2, .exchangeCall .MsaRefresh])) := by
  refine ⟨?_, ?_, ?_, ?_, ?_, ?_⟩
  · exact (C4_connection_errors_fatal envC4 0 true emptyCreds).1 "r" .ConnectionError rfl rfl
  · exact (C4_connection_errors_fatal envC4 0 true emptyCreds).2.1 "a" .ConnectionError rfl rfl
  · exact (C4_connection_errors_fatal envC4 0 true emptyCreds).2.2.1 "x" .ConnectionError rfl rfl
  · exact (C4_connection_errors_fatal envC4 0 true emptyCreds).2.2.2.1 "s" "uh" .ConnectionError
      rfl rfl
  · exact (C4_connection_errors_fatal envC4 0 true emptyCreds).2.2.2.2.1 ⟨"mc"⟩ .ConnectionError
      rfl rfl
  · exact (C4_connection_errors_fatal envC4 0 true credsC1).2.2.2.2.2 0 none
      (.err (.MsaAuthorizationError .ConnectionError)) credsC1
      [.setCount 2, .exchangeCall .MsaRefresh] (by decide)

/-- C5: with `MsaRefresh` the first stage evaluated (`allow_backwards`
still true), an `Ok(None)` invalid-grant answer from `refresh_msa` does not
fail: the iteration clears `refresh_token` and the forced-client-id
override and continues, and the next resolution yields `Initial`;
conversely, once `allow_backwards` is false the same answer terminates
fatally with `InvalidGrant`. -/
theorem C5_invalid_grant_fallback :
    (loginStep envC5 0 none true credsC5
      = .next .MsaRefresh true emptyCreds [.setCount 2, .exchangeCall .MsaRefresh])
  ∧ ((emptyCreds.stage (envC5.now 1)).1 = .Initial)
  ∧ (∀ (env : LoginEnv) (i : Nat) (c : AccountCredentials) (tok : String),
      env.refreshMsa i tok c.msa_refresh_force_client_id = .ok none →
      dispatch env i false (.MsaRefresh tok) c
        = (some (.err (.MsaAuthorizationError .InvalidGrant)), c,
           [.exchangeCall .MsaRefresh])) := by
  refine ⟨by decide, by decide, ?_⟩
  intro env i c tok h
  simp [dispatch, h]

/-- Witness for C5: the fatal `InvalidGrant` conjunct instantiated under
`envC5` with `allow_backwards` off. -/
theorem C5_invalid_grant_fallback_witness :
    dispatch envC5 3 false (.MsaRefresh "q") emptyCreds
      = (some (.err (.MsaAuthorizationError .InvalidGrant)), emptyCreds,
         [.exchangeCall .MsaRefresh]) :=
  C5_invalid_grant_fallback.2.2 envC5 3 emptyCreds "q" rfl

/-- C10: a successful `refresh_msa` at `MsaRefresh` overwrites `msa_access`
with the returned access token and `msa_refresh` with exactly the returned
refresh option (every other field, `msa_refresh_force_client_id` included,
unchanged — and a `none` refresh drops the stored token); the
forced-client-id override is never touched by any stage other than
`Initial` and `MsaRefresh`. -/
theorem C10_refresh_frame (env : LoginEnv) (i : Nat) (ab : Bool)
    (c : AccountCredentials) :
    (∀ tok tokens, env.refreshMsa i tok c.msa_refresh_force_client_id = .ok (some tokens) →
      dispatch env i ab (.MsaRefresh tok) c
        = (none,
           { c with msa_access := some tokens.access, msa_refresh := tokens.refresh },
           [.exchangeCall .MsaRefresh]))
  ∧ (∀ swd : AuthStageWithData, swd.stage ≠ .Initial → swd.stage ≠ .MsaRefresh →
      ((dispatch env i ab swd c).2.1).msa_refresh_force_client_id
        = c.msa_refresh_force_client_id) := by
  constructor
  · intro tok tokens h
    simp [dispatch, h]
  · intro swd h1 h2
    cases swd with
    | Initial => exact absurd rfl h1
    | MsaRefresh tok => exact absurd rfl h2
    | MsaAccess tok =>
      rcases h : env.authenticateXbox i tok with e | t <;> simp [dispatch, h] <;> split_ifs <;> rfl
    | XboxLive tok =>
      rcases h : env.obtainXsts i tok with e | t <;> simp [dispatch, h] <;> split_ifs <;> rfl
    | XboxSecure xs uh =>
      rcases h : env.authenticateMinecraft i xs uh with e | t <;> simp [dispatch, h] <;>
        split_ifs <;> rfl
    | AccessToken tok =>
      rcases h : env.getMinecraftProfile i tok with e | t <;> simp [dispatch, h] <;>
        split_ifs <;> rfl

/-- Witness for C10: under `envC10` the provider returns no new refresh
token, so the stored `msa_refresh` is dropped while the forced-client-id
override survives; and a non-`MsaRefresh` stage leaves the override alone. -/
theorem C10_refresh_frame_witness :
    (dispatch envC10 0 true (.MsaRefresh "old") credsC5
      = (none, ⟨none, some "cid", some ⟨"a", 100⟩, none, none, none⟩,
         [.exchangeCall .MsaRefresh]))
    ∧ (((dispatch envC10 0 true (.MsaAccess "a") credsC5).2.1).msa_refresh_force_client_id
        = credsC5.msa_refresh_force_client_id) := by
  constructor
  · exact (C10_refresh_frame envC10 0 true credsC5).1 "old" ⟨⟨"a", 100⟩, none⟩ rfl
  · exact (C10_refresh_frame envC10 0 true credsC5).2 (.MsaAccess "a") (by decide) (by decide)

/-- C1 counterexample: after the attempt strictly advances past
`MsaRefresh` (the `MsaRefresh → MsaAccess` advance clears
`allow_backwards`), a non-connection HTTP-401 failure of
`authenticate_xbox` at `MsaAccess` terminates the attempt fatally with
`XboxAuthenticateError(NonOkHttpStatus 401)` and leaves `msa_access` in
place — it is not cleared and the loop does not continue, contradicting the
claimed post-advance clear-and-retry-to-success behaviour. -/
theorem C1_cex_postAdvance_fatal :
    login envC1cex credsC1
      = (.err (.XboxAuthenticateError (.NonOkHttpStatus 401)),
         ⟨some "r2", none, some ⟨"a", 100⟩, none, none, none⟩,
         [.setTotal 7, .setCount 2, .exchangeCall .MsaRefresh,
          .setCount 3, .exchangeCall .MsaAccess]) := by
  decide

/-- C1 (amended): the unauthorized-fallback at `MsaAccess` exists only
while `allow_backwards` is still true, i.e. before any strict stage
advance: when `MsaAccess` is the first stage an attempt evaluates, a 401
from `authenticate_xbox` clears `msa_access` and the loop continues,
retrying through `MsaRefresh` to eventual success (first conjunct: the full
run, whose trace shows `MsaAccess, MsaRefresh, MsaAccess, …` ending in the
success slot); once `allow_backwards` is false, any error of
`authenticate_xbox` — unauthorized included — terminates the dispatch
fatally with the error and no field is cleared (second conjunct). -/
theorem C1_msaAccess_fallback_preAdvance_only :
    (login envC1ok credsC1ok
      = (.ok ⟨"id0", "name0"⟩ ⟨"mc"⟩,
         ⟨some "r2", none, some ⟨"a2", 100⟩, some ⟨"x", 100⟩,
          some ⟨"s", 100, "uh"⟩, some ⟨"mc", 100⟩⟩,
         [.setTotal 7, .setCount 3, .exchangeCall .MsaAccess,
          .setCount 2, .exchangeCall .MsaRefresh,
          .setCount 3, .exchangeCall .MsaAccess,
          .setCount 4, .exchangeCall .XboxLive,
          .setCount 5, .exchangeCall .XboxSecure,
          .setCount 6, .exchangeCall .AccessToken, .setCount 7]))
  ∧ (∀ (env : LoginEnv) (i : Nat) (c : AccountCredentials) (tok : String)
      (e : XboxAuthenticateError),
      env.authenticateXbox i tok = .error e →
      dispatch env i false (.MsaAccess tok) c
        = (some (.err (.XboxAuthenticateError e)), c, [.exchangeCall .MsaAccess])) := by
  refine ⟨by decide, ?_⟩
  intro env i c tok e h
  simp [dispatch, h]

/-- Witness for C1: the post-advance fatality conjunct instantiated at the
HTTP-401 error under `envC1cex`. -/
theorem C1_msaAccess_fallback_witness :
    dispatch envC1cex 1 false (.MsaAccess "a") emptyCreds
      = (some (.err (.XboxAuthenticateError (.NonOkHttpStatus 401))), emptyCreds,
         [.exchangeCall .MsaAccess]) :=
  C1_msaAccess_fallback_preAdvance_only.2 envC1cex 1 emptyCreds "a"
    (.NonOkHttpStatus 401) rfl

/-- C7: cancellation — if the flag is observed at the top of an iteration
the loop returns `CancelledByUser` immediately, with the record exactly as
it was and an empty trace (no exchange call, no mutation); and during the
`Initial` stage, losing the race to the cancellation signal while awaiting
the redirect likewise returns `CancelledByUser` with the record exactly as
resolution left it and no exchange call in the trace. -/
theorem C7_cancellation (env : LoginEnv) (i : Nat) (last : Option AuthStage) (ab : Bool)
    (c : AccountCredentials) :
    (env.cancelRequested i = true → ∀ fuel,
      loginLoop env (fuel + 1) i last ab c = (.err .CancelledByUser, c, []))
  ∧ (∀ ab2, env.cancelRequested i = false →
      (c.stage (env.now i)).1 = .Initial →
      checkStage last .Initial ab = .ok ab2 →
      env.redirect i = none →
      loginStep env i last ab c
        = .ret (.err .CancelledByUser) (c.stage (env.now i)).2
            [.setCount 1, .redirectWait]) := by
  constructor
  · intro hc fuel
    simp [loginLoop, loginStep, hc]
  · intro ab2 hc hstage hcheck hred
    rw [loginStep_eq env i last ab c hc, hstage]
    have hs : AuthStageWithData.stage .Initial = .Initial := rfl
    rw [hs, hcheck]
    simp [dispatch, hred, AuthStage.toNat]

/-- Witness for C7: cancellation observed at the top of the first iteration
under `envC7`, and the redirect race lost under `baseEnv`. -/
theorem C7_cancellation_witness :
    (loginLoop envC7 1 0 none true emptyCreds = (.err .CancelledByUser, emptyCreds, []))
    ∧ (loginStep baseEnv 0 none true emptyCreds
        = .ret (.err .CancelledByUser) emptyCreds [.setCount 1, .redirectWait]) := by
  constructor
  · exact (C7_cancellation envC7 0 none true emptyCreds).1 rfl 0
  · exact (C7_cancellation baseEnv 0 none true emptyCreds).2 true rfl (by decide) rfl rfl

/-! ### Progress-trace lemmas -/

theorem setCount_top_ne (s : AuthStage) :
    ¬ (LoginEvent.setCount (AUTH_STAGE_COUNT + 1) = LoginEvent.setCount (s.toNat + 1)) := by
  cases s <;> decide

theorem dispatch_progress (env : LoginEnv) (i : Nat) (ab : Bool) (swd : AuthStageWithData)
    (c : AccountCredentials) :
    checkProgress (some (swd.stage.toNat + 1)) (dispatch env i ab swd c).2.2 = true := by
  cases swd <;> simp only [dispatch] <;> (repeat' split) <;>
    simp +decide [checkProgress, AuthStageWithData.stage, AuthStage.toNat, AUTH_STAGE_COUNT]

theorem dispatch_seven (env : LoginEnv) (i : Nat) (ab : Bool) (swd : AuthStageWithData)
    (c : AccountCredentials) :
    ((LoginEvent.setCount (AUTH_STAGE_COUNT + 1)) ∈ (dispatch env i ab swd c).2.2)
      ↔ (∃ p t, (dispatch env i ab swd c).1 = some (.ok p t)) := by
  cases swd <;> simp only [dispatch] <;> (repeat' split) <;>
    simp [AUTH_STAGE_COUNT, AuthStage.toNat]

/-- C8: in every loop iteration the progress reporter is set to
`ordinal(stage) + 1` before the stage's exchange call begins (the trace
discipline `checkProgress` holds, and whenever the iteration is not
cancelled its first event is that `set_count`); the final slot
`AUTH_STAGE_COUNT + 1 = 7` appears in an iteration's trace exactly when
that iteration returns the successful profile fetch; and the attempt's
trace starts with `set_total 7`. -/
theorem C8_progress_before_calls (env : LoginEnv) (i : Nat) (last : Option AuthStage)
    (ab : Bool) (c : AccountCredentials) :
    (checkProgress none (loginStep env i last ab c).events = true)
  ∧ ((LoginEvent.setCount (AUTH_STAGE_COUNT + 1)) ∈ (loginStep env i last ab c).events
      ↔ (loginStep env i last ab c).isSuccess = true)
  ∧ (env.cancelRequested i = false →
      (loginStep env i last ab c).events.head?
        = some (.setCount (((c.stage (env.now i)).1.stage).toNat + 1)))
  ∧ (∀ c0, ((login env c0).2.2).head? = some (.setTotal (AUTH_STAGE_COUNT + 1))) := by
  cases hcancel : env.cancelRequested i with
  | true =>
    refine ⟨?_, ?_, ?_, ?_⟩ <;>
      simp [loginStep, hcancel, StepRes.events, StepRes.isSuccess, checkProgress, login]
  | false =>
    rcases hcs : checkStage last ((c.stage (env.now i)).1.stage) ab with e | ab2
    · rw [loginStep_eq_err env i last ab c hcancel e hcs]
      refine ⟨?_, ?_, ?_, ?_⟩
      · simp [StepRes.events, checkProgress]
      · simp [StepRes.events, StepRes.isSuccess,
          setCount_top_ne ((c.stage (env.now i)).1.stage)]
      · intro
        simp [StepRes.events]
      · intro c0
        simp [login]
    · have hstep := loginStep_eq_ok env i last ab c hcancel ab2 hcs
      rcases hd : dispatch env i ab2 (c.stage (env.now i)).1 (c.stage (env.now i)).2
        with ⟨fst, c2, evs⟩
      rw [hd] at hstep
      have hprog := dispatch_progress env i ab2 (c.stage (env.now i)).1 (c.stage (env.now i)).2
      have hseven := dispatch_seven env i ab2 (c.stage (env.now i)).1 (c.stage (env.now i)).2
      rw [hd] at hprog hseven
      cases fst with
      | some r =>
        rw [hstep]
        refine ⟨?_, ?_, ?_, ?_⟩
        · simpa [StepRes.events, checkProgress] using hprog
        · simp only [StepRes.events, List.mem_cons,
            setCount_top_ne ((c.stage (env.now i)).1.stage), false_or]
          simp only at hseven
          rw [hseven]
          cases r <;> simp [StepRes.isSuccess]
        · intro
          simp [StepRes.events]
        · intro c0
          simp [login]
      | none =>
        rw [hstep]
        refine ⟨?_, ?_, ?_, ?_⟩
        · simpa [StepRes.events, checkProgress] using hprog
        · simp only [StepRes.events, List.mem_cons,
            setCount_top_ne ((c.stage (env.now i)).1.stage), false_or]
          simp only at hseven
          rw [hseven]
          simp [StepRes.isSuccess]
        · intro
          simp [StepRes.events]
        · intro c0
          simp [login]

/-- Witness for C8: the non-cancelled-head conjunct instantiated under
`baseEnv` on the empty record (resolved stage `Initial`, so the iteration
opens with `set_count 1`). -/
theorem C8_progress_before_calls_witness :
    (loginStep baseEnv 0 none true emptyCreds).events.head?
      = some (.setCount 1) := by
  have h := (C8_progress_before_calls baseEnv 0 none true emptyCreds).2.2.1 rfl
  simpa using h

/-! ### Termination lemmas -/

theorem toNat_le_five (s : AuthStage) : s.toNat ≤ 5 := by
  cases s <;> simp [AuthStage.toNat]

theorem toNat_inj (s l : AuthStage) (h : s.toNat = l.toNat) : s = l := by
  cases s <;> cases l <;> simp_all [AuthStage.toNat]

theorem mu_pos (last : Option AuthStage) (ab : Bool) : 1 ≤ loopMeasure last ab := by
  rcases last with _ | l
  · cases ab <;> simp [loopMeasure]
  · cases ab <;> (simp only [loopMeasure]; have := toNat_le_five l; omega)

theorem dispatch_fst_not_fuel (env : LoginEnv) (i : Nat) (ab : Bool)
    (swd : AuthStageWithData) (c : AccountCredentials) :
    ∀ r, (dispatch env i ab swd c).1 = some r → r.isOutOfFuel = false := by
  intro r h
  cases swd <;> simp only [dispatch] at h <;> (repeat' split at h) <;> simp at h <;>
    subst h <;> rfl

theorem loginStep_ret_not_fuel (env : LoginEnv) (i : Nat) (last : Option AuthStage)
    (ab : Bool) (c : AccountCredentials) (r : LoginResult) (c2 : AccountCredentials)
    (evs : List LoginEvent) (h : loginStep env i last ab c = .ret r c2 evs) :
    r.isOutOfFuel = false := by
  cases hcancel : env.cancelRequested i with
  | true =>
    simp [loginStep, hcancel] at h
    rcases h with ⟨h1, -, -⟩
    subst h1
    rfl
  | false =>
    rcases hcs : checkStage last ((c.stage (env.now i)).1.stage) ab with e | ab2
    · rw [loginStep_eq_err env i last ab c hcancel e hcs] at h
      simp at h
      rcases h with ⟨h1, -, -⟩
      subst h1
      rfl
    · rw [loginStep_eq_ok env i last ab c hcancel ab2 hcs] at h
      rcases hd : dispatch env i ab2 (c.stage (env.now i)).1 (c.stage (env.now i)).2
        with ⟨fst, c3, evs3⟩
      rw [hd] at h
      cases fst with
      | some r0 =>
        simp at h
        rcases h with ⟨h1, -, -⟩
        subst h1
        exact dispatch_fst_not_fuel env i ab2 _ _ r0 (by rw [hd])
      | none =>
        simp at h

theorem loginStep_next_check (env : LoginEnv) (i : Nat) (last : Option AuthStage)
    (ab : Bool) (c : AccountCredentials) (s : AuthStage) (ab2 : Bool)
    (c2 : AccountCredentials) (evs : List LoginEvent)
    (h : loginStep env i last ab c = .next s ab2 c2 evs) :
    checkStage last s ab = .ok ab2 := by
  cases hcancel : env.cancelRequested i with
  | true => simp [loginStep, hcancel] at h
  | false =>
    rcases hcs : checkStage last ((c.stage (env.now i)).1.stage) ab with e | ab0
    · rw [loginStep_eq_err env i last ab c hcancel e hcs] at h
      simp at h
    · rw [loginStep_eq_ok env i last ab c hcancel ab0 hcs] at h
      rcases hd : dispatch env i ab0 (c.stage (env.now i)).1 (c.stage (env.now i)).2
        with ⟨fst, c3, evs3⟩
      rw [hd] at h
      cases fst with
      | some r0 => simp at h
      | none =>
        simp at h
        rcases h with ⟨h1, h2, -, -⟩
        subst h1
        subst h2
        exact hcs

theorem checkStage_ok_mu (last : Option AuthStage) (s : AuthStage) (ab ab2 : Bool)
    (h : checkStage last s ab = .ok ab2) :
    loopMeasure (some s) ab2 < loopMeasure last ab := by
  have hs5 := toNat_le_five s
  rcases last with _ | l
  · simp [checkStage] at h
    cases ab <;> cases ab2 <;> simp_all [loopMeasure] <;> omega
  · have hl5 := toNat_le_five l
    by_cases h1 : l.toNat < s.toNat
    · simp only [checkStage, if_pos h1] at h
      simp at h
      cases ab <;> cases ab2 <;> simp_all [loopMeasure] <;> omega
    · by_cases h2 : s.toNat < l.toNat ∧ ab = false
      · simp only [checkStage, if_neg h1, if_pos h2] at h
        simp at h
      · by_cases h3 : s = l
        · simp only [checkStage, if_neg h1, if_neg h2, if_pos h3] at h
          simp at h
        · simp only [checkStage, if_neg h1, if_neg h2, if_neg h3] at h
          simp at h
          have hne : s.toNat ≠ l.toNat := fun hh => h3 (toNat_inj s l hh)
          have hsl : s.toNat < l.toNat := by omega
          have hab : ab = true := by
            rcases Bool.eq_false_or_eq_true ab with ht | hf
            · exact ht
            · exact absurd ⟨hsl, hf⟩ h2
          subst hab
          subst h
          simp only [loopMeasure]
          omega

theorem loginLoop_no_fuel (fuel : Nat) :
    ∀ (env : LoginEnv) (i : Nat) (last : Option AuthStage) (ab : Bool)
      (c : AccountCredentials), loopMeasure last ab ≤ fuel →
      ((loginLoop env fuel i last ab c).1).isOutOfFuel = false := by
  induction fuel with
  | zero =>
    intro env i last ab c hle
    exact absurd hle (by have := mu_pos last ab; omega)
  | succ n ih =>
    intro env i last ab c hle
    simp only [loginLoop]
    rcases hstep : loginStep env i last ab c with ⟨r, c2, evs⟩ | ⟨s, ab2, c2, evs⟩
    · simpa using loginStep_ret_not_fuel env i last ab c r c2 evs hstep
    · have hcs := loginStep_next_check env i last ab c s ab2 c2 evs hstep
      have hlt := checkStage_ok_mu last s ab ab2 hcs
      simpa using ih env (i + 1) (some s) ab2 c2 (by omega)

/-- C9: for every environment behaviour, `login` terminates within its
budget of `2 * AUTH_STAGE_COUNT = 12` iterations — the resolved-stage
ordinal strictly decreases while `allow_backwards` holds and strictly
increases afterwards, so the fuel of the interpreter is never exhausted and
the attempt ends in success or a typed failure. -/
theorem C9_login_terminates (env : LoginEnv) (c : AccountCredentials) :
    ((login env c).1).isOutOfFuel = false := by
  have h := loginLoop_no_fuel (2 * AUTH_STAGE_COUNT) env 0 none true c (by decide)
  simpa [login] using h

end PandoraAuth
